import Mathlib

/-!
Verification of the online-library lifecycle logic.

This file gives a shallow embedding of the core data model and service
operations of the online-library application (user/author accounts, book
lifecycle, per-(user, book) reading progress) and proves properties about
them.

Conventions of the embedding:
* machine timestamps (`datetime.utcnow()`) are modelled by an explicit
  `now : Nat` argument threaded to each operation;
* the relational store is a `DB` record of four row lists; every
  `session.commit()` in the source corresponds to one committed `DB` value
  returned by the embedded operation (operations that commit twice return
  both committed states, in order);
* `HTTPException(status_code, detail)` is modelled by the `HTTPError`
  record; a raising code path returns `Except.error`;
* Python float percentages are modelled exactly over `ℚ`; Python's
  `round(x, 2)` is modelled by rounding `x * 100` to the nearest integer
  (the claims proved below do not depend on tie-breaking);
* the external password-hashing and password-verification primitives are
  opaque function parameters (`hashFn`, `verifyFn`).
-/

namespace OnlineLib

/-- Embedding of `fastapi.HTTPException(status_code=..., detail=...)`. -/
structure HTTPError where
  statusCode : Nat
  detail : String
deriving DecidableEq, Repr

/-! ## Data rows (from `app/models/*.py`) -/

/-- Row of the `users` table (`app/models/user.py` / fields used by the
services). -/
structure User where
  id : Nat
  username : String
  email : String
  password_hash : String
  first_name : Option String := none
  last_name : Option String := none
  is_author : Bool
  is_active : Bool
  last_login : Option Nat := none
deriving DecidableEq, Repr

/-- Row of the `authors` table (`app/models/author.py`, fields used by the
services). -/
structure Author where
  id : Nat
  user_id : Nat
  pen_name : String
  total_books : Int
  total_reads : Int
deriving DecidableEq, Repr

/-- Row of the `books` table (`app/models/book.py`). -/
structure Book where
  id : Nat
  author_id : Nat
  title : String
  description : Option String := none
  genre : Option String := none
  cover_image_url : Option String := none
  file_url : Option String := none
  is_published : Bool
  published_at : Option Nat := none
  total_pages : Option Int := none
  read_count : Int
  created_at : Nat := 0
  updated_at : Nat := 0
deriving DecidableEq, Repr

/-- Row of the `reading_progress` table (`app/models/reading_progress.py`). -/
structure ReadingProgress where
  id : Nat
  user_id : Nat
  book_id : Nat
  current_page : Int
  total_pages : Option Int
  reading_time_minutes : Int := 0
  is_completed : Bool
  started_at : Nat := 0
  last_read_at : Option Nat := none
  completed_at : Option Nat := none
  created_at : Nat := 0
  updated_at : Nat := 0
deriving DecidableEq, Repr

/-! ## Validators (from `app/utils/validators.py`)

The regular expressions of the source are all of the shape
`^[character class]+$` except the email pattern, which is decomposed
below exactly as backtracking matches it. -/

/-- Characters of the class `[a-zA-Z0-9_-]` (username charset). -/
def isUsernameChar (c : Char) : Bool :=
  c.isAlphanum || c == '_' || c == '-'

/-- `s.startswith(c)` for a single character (false on the empty string). -/
def firstCharIs (s : String) (c : Char) : Bool :=
  match s.data with
  | [] => false
  | a :: _ => a == c

/-- `s.endswith(c)` for a single character (false on the empty string). -/
def lastCharIs (s : String) (c : Char) : Bool :=
  match s.data.getLast? with
  | none => false
  | some a => a == c

/-- `validate_username` from `app/utils/validators.py`. -/
def validate_username (username : String) : List String :=
  (if username.length < 3 then ["Username must be at least 3 characters long"] else []) ++
  (if username.length > 50 then ["Username must be less than 50 characters"] else []) ++
  (if !(username.length > 0 && username.data.all isUsernameChar) then
    ["Username can only contain letters, numbers, underscores, and hyphens"] else []) ++
  (if firstCharIs username '-' || firstCharIs username '_' then
    ["Username cannot start with a hyphen or underscore"] else []) ++
  (if lastCharIs username '-' || lastCharIs username '_' then
    ["Username cannot end with a hyphen or underscore"] else [])

/-- Characters of the class `[a-zA-Z0-9._%+-]` (email local part). -/
def isEmailLocalChar (c : Char) : Bool :=
  c.isAlphanum || c == '.' || c == '_' || c == '%' || c == '+' || c == '-'

/-- Characters of the class `[a-zA-Z0-9.-]` (email domain part). -/
def isEmailDomainChar (c : Char) : Bool :=
  c.isAlphanum || c == '.' || c == '-'

/-- Match of `^[a-zA-Z0-9._%+-]+@[a-zA-Z0-9.-]+\.[a-zA-Z]{2,}$`.
Neither class contains `@`, so a match splits at the unique `@`; the final
`[a-zA-Z]{2,}$` segment contains no dot, so the `\.` of the pattern is
necessarily the last dot after the `@`. -/
def emailPatternMatch (email : String) : Bool :=
  let cs := email.data
  let localPart := cs.takeWhile (fun c => c != '@')
  match cs.drop localPart.length with
  | '@' :: domain =>
    let afterLastDot := (domain.reverse.takeWhile (fun c => c != '.')).reverse
    localPart.length > 0 && localPart.all isEmailLocalChar &&
    afterLastDot.length < domain.length &&
    afterLastDot.length ≥ 2 && afterLastDot.all Char.isAlpha &&
    (domain.length - afterLastDot.length - 1) > 0 &&
    (domain.take (domain.length - afterLastDot.length - 1)).all isEmailDomainChar
  | _ => false

/-- `validate_email` from `app/utils/validators.py`. -/
def validate_email (email : String) : List String :=
  (if !emailPatternMatch email then ["Invalid email format"] else []) ++
  (if email.length > 255 then ["Email must be less than 255 characters"] else [])

/-- Characters of the class `[!@#$%^&*(),.?":{}|<>]` (password specials). -/
def isPasswordSpecialChar (c : Char) : Bool :=
  "!@#$%^&*(),.?\":\x7b\x7d|<>".data.contains c

/-- `validate_password_strength` from `app/utils/validators.py`. -/
def validate_password_strength (password : String) : List String :=
  (if password.length < 8 then ["Password must be at least 8 characters long"] else []) ++
  (if password.length > 100 then ["Password must be less than 100 characters"] else []) ++
  (if !(password.data.any Char.isUpper) then
    ["Password must contain at least one uppercase letter"] else []) ++
  (if !(password.data.any Char.isLower) then
    ["Password must contain at least one lowercase letter"] else []) ++
  (if !(password.data.any Char.isDigit) then
    ["Password must contain at least one digit"] else []) ++
  (if !(password.data.any isPasswordSpecialChar) then
    ["Password must contain at least one special character"] else [])

/-- Characters of the class `[a-zA-Z0-9\s\-'.,!?()]` (book titles). -/
def isTitleChar (c : Char) : Bool :=
  c.isAlphanum || c.isWhitespace || c == '-' || c == '\'' || c == '.' ||
  c == ',' || c == '!' || c == '?' || c == '(' || c == ')'

/-- `validate_book_title` from `app/utils/validators.py`. -/
def validate_book_title (title : String) : List String :=
  (if title.length < 1 then ["Book title cannot be empty"] else []) ++
  (if title.length > 255 then ["Book title must be less than 255 characters"] else []) ++
  (if !(title.length > 0 && title.data.all isTitleChar) then
    ["Book title contains invalid characters"] else [])

/-! ## Pure model methods -/

/-- `ReadingProgress.progress_percentage` (model property,
`app/models/reading_progress.py` lines 147-158).  Python's
`not self.total_pages` is true exactly for `None` and `0`. -/
def ReadingProgress.progress_percentage (rp : ReadingProgress) : ℚ :=
  match rp.total_pages with
  | none => 0
  | some t => if t = 0 then 0 else min 100 ((rp.current_page : ℚ) / (t : ℚ) * 100)

/-- `ReadingProgress.is_started` (model property). -/
def ReadingProgress.is_started (rp : ReadingProgress) : Bool :=
  rp.current_page > 1 || rp.reading_time_minutes > 0

/-- `ReadingProgress.mark_completed` (model method).  `if self.total_pages:`
is Python truthiness: skipped for `None` and for `0`. -/
def ReadingProgress.mark_completed (rp : ReadingProgress) (now : Nat) : ReadingProgress :=
  let rp1 := { rp with is_completed := true, completed_at := some now }
  match rp1.total_pages with
  | none => rp1
  | some t => if t = 0 then rp1 else { rp1 with current_page := t }

/-- `ReadingProgress.update_progress` (model method, lines 115-129): applies
the page, accumulates reading time, stamps `last_read_at`, then
auto-completes when `total_pages` is truthy and `current_page` reached it. -/
def ReadingProgress.update_progress (rp : ReadingProgress) (current_page : Int)
    (reading_time_minutes : Int) (now : Nat) : ReadingProgress :=
  let rp1 := { rp with
    current_page := current_page,
    reading_time_minutes := rp.reading_time_minutes + reading_time_minutes,
    last_read_at := some now }
  match rp1.total_pages with
  | none => rp1
  | some t => if t ≠ 0 ∧ current_page ≥ t then rp1.mark_completed now else rp1

/-- `ReadingProgress.reset_progress` (model method, lines 138-145). -/
def ReadingProgress.reset_progress (rp : ReadingProgress) (now : Nat) : ReadingProgress :=
  { rp with
    current_page := 1,
    reading_time_minutes := 0,
    is_completed := false,
    completed_at := none,
    started_at := now,
    last_read_at := none }

/-- `Book.publish` (model method): stamps `published_at` unconditionally. -/
def Book.publish (b : Book) (now : Nat) : Book :=
  { b with is_published := true, published_at := some now }

/-- `Book.unpublish` (model method, `app/models/book.py` lines 139-146):
clears `published_at`. -/
def Book.unpublish (b : Book) : Book :=
  { b with is_published := false, published_at := none }

/-- `Book.increment_read_count` (model method). -/
def Book.increment_read_count (b : Book) : Book :=
  { b with read_count := b.read_count + 1 }

/-- `Book.is_available` (model property). -/
def Book.is_available (b : Book) : Bool :=
  b.is_published && b.file_url.isSome

/-! ## The relational store

`DB` is the committed database state.  Each service operation is a pure
function of the incoming state; every `commit()` of the source produces one
`DB` value in the result. -/

/-- The four tables. -/
structure DB where
  users : List User
  authors : List Author
  books : List Book
  progresses : List ReadingProgress
deriving DecidableEq, Repr

/-- `db.get(Book, id)` — point lookup by primary key. -/
def DB.getBook (db : DB) (id : Nat) : Option Book :=
  db.books.find? (fun b => b.id == id)

/-- `db.get(Author, id)` — point lookup by primary key. -/
def DB.getAuthor (db : DB) (id : Nat) : Option Author :=
  db.authors.find? (fun a => a.id == id)

/-- Write back a mutated `Book` row (ORM identity is the primary key). -/
def DB.putBook (db : DB) (b : Book) : DB :=
  { db with books := db.books.map (fun x => if x.id == b.id then b else x) }

/-- Write back a mutated `Author` row. -/
def DB.putAuthor (db : DB) (a : Author) : DB :=
  { db with authors := db.authors.map (fun x => if x.id == a.id then a else x) }

/-- Write back a mutated `User` row. -/
def DB.putUser (db : DB) (u : User) : DB :=
  { db with users := db.users.map (fun x => if x.id == u.id then u else x) }

/-- Write back a mutated `ReadingProgress` row. -/
def DB.putProgress (db : DB) (rp : ReadingProgress) : DB :=
  { db with progresses := db.progresses.map (fun x => if x.id == rp.id then rp else x) }

/-! ## Request schemas (from `app/schemas/*.py`) -/

/-- `ReadingProgressUpdate` (the `notes` field is accepted by the schema and
ignored by the service). -/
structure ReadingProgressUpdate where
  current_page : Option Int := none
  status : Option String := none
  notes : Option String := none
deriving DecidableEq, Repr

/-- `BookCreate`. -/
structure BookCreate where
  title : String
  description : Option String := none
  genre : Option String := none
  total_pages : Option Int := none
deriving DecidableEq, Repr

/-- `BookUpdate` (partial patch: `none` = field absent). -/
structure BookUpdate where
  title : Option String := none
  description : Option String := none
  genre : Option String := none
  total_pages : Option Int := none
  is_published : Option Bool := none
deriving DecidableEq, Repr

/-- `UserRegister`. -/
structure UserRegister where
  username : String
  email : String
  password : String
  first_name : Option String := none
  last_name : Option String := none
  is_author : Bool := false
deriving DecidableEq, Repr

/-- Claims of the issued JWT (`create_access_token` payload). -/
structure TokenClaims where
  sub : String
  user_id : Nat
  is_author : Bool
deriving DecidableEq, Repr

/-! ## Reading service (from `app/services/reading_service.py`) -/

namespace ReadingService

/-- `ReadingService.start_reading` (lines 36-92).  On success the source
commits twice: first the new `ReadingProgress` row, then the `read_count`
increment (`_increment_book_read_count`, which commits again); the result
carries both committed states in order, plus the created row. -/
def start_reading (db : DB) (user : User) (book : Book) (newId now : Nat) :
    Except HTTPError (DB × DB × ReadingProgress) :=
  if book.is_published = false then
    .error ⟨400, "Cannot start reading an unpublished book"⟩
  else if (db.progresses.find? (fun r => r.user_id == user.id && r.book_id == book.id)).isSome then
    .error ⟨400, "User is already reading this book"⟩
  else
    let rp : ReadingProgress := {
      id := newId,
      user_id := user.id,
      book_id := book.id,
      current_page := 1,
      total_pages := book.total_pages,
      reading_time_minutes := 0,
      is_completed := false,
      started_at := now,
      last_read_at := none,
      completed_at := none,
      created_at := now,
      updated_at := now }
    let db1 := { db with progresses := db.progresses ++ [rp] }
    let db2 := db1.putBook book.increment_read_count
    .ok (db1, db2, rp)

/-- Field application part of `ReadingService.update_progress`
(lines 128-143): the partial patch, the unconditional `last_read_at`
stamp and the `updated_at` stamp.  No auto-completion happens here. -/
def apply_progress_update (rp : ReadingProgress) (p : ReadingProgressUpdate)
    (now : Nat) : ReadingProgress :=
  let rp1 := match p.current_page with
    | some cp => { rp with current_page := cp }
    | none => rp
  let rp2 := match p.status with
    | some s =>
      if s = "completed" then { rp1 with is_completed := true, completed_at := some now }
      else if s = "reading" then { rp1 with is_completed := false, last_read_at := some now }
      else rp1
    | none => rp1
  { rp2 with last_read_at := some now, updated_at := now }

/-- Page validation part of `ReadingService.update_progress`
(lines 112-126): lower bound 1, then upper bound against the *book's*
current `total_pages` when the book row is found and its `total_pages` is
truthy (`book and book.total_pages and ...`). -/
def update_progress_page_check (db : DB) (rp : ReadingProgress)
    (p : ReadingProgressUpdate) : Option HTTPError :=
  match p.current_page with
  | none => none
  | some cp =>
    if cp < 1 then some ⟨400, "Current page must be at least 1"⟩
    else
      match db.getBook rp.book_id with
      | none => none
      | some book =>
        match book.total_pages with
        | none => none
        | some t =>
          if t ≠ 0 ∧ cp > t then
            some ⟨400, "Current page cannot exceed total pages (" ++ toString t ++ ")"⟩
          else none

/-- `ReadingService.update_progress` (lines 94-147): validate the page,
apply the patch, stamp timestamps, and commit once. -/
def update_progress (db : DB) (rp : ReadingProgress) (p : ReadingProgressUpdate)
    (now : Nat) : Except HTTPError (DB × ReadingProgress) :=
  match update_progress_page_check db rp p with
  | some e => .error e
  | none =>
    let rp1 := apply_progress_update rp p now
    .ok (db.putProgress rp1, rp1)

/-- `ReadingService.delete_reading_progress` (lines 347-362): removes the
row unconditionally and commits once. -/
def delete_reading_progress (db : DB) (rp : ReadingProgress) : DB × Bool :=
  ({ db with progresses := db.progresses.filter (fun r => !(r.id == rp.id)) }, true)

/-- Rounding of `round(x, 2)` over `ℚ`. -/
def round2 (q : ℚ) : ℚ :=
  ((round (q * 100) : ℤ) : ℚ) / 100

/-- `ReadingService._calculate_progress_percentage` (lines 364-382):
`None` when `total_pages` is `None`, `0` or negative (Python
`not total_pages or total_pages <= 0`); otherwise the unclamped rounded
percentage. -/
def calculate_progress_percentage (current_page : Int) (total_pages : Option Int) :
    Option ℚ :=
  match total_pages with
  | none => none
  | some t =>
    if t ≤ 0 then none
    else some (round2 ((current_page : ℚ) / (t : ℚ) * 100))

end ReadingService

/-! ## Book service (from `app/services/book_service.py`) -/

namespace BookService

/-- `BookService.create_book` (lines 32-92).  On success the source commits
twice: first the new `Book` row, then the `author.total_books` increment;
both committed states are returned in order, plus the created row. -/
def create_book (db : DB) (author : Author) (data : BookCreate) (newId now : Nat) :
    Except HTTPError (DB × DB × Book) :=
  let issues := validate_book_title data.title
  if issues ≠ [] then
    .error ⟨400, "Book title validation failed: " ++ String.intercalate ", " issues⟩
  else if (db.books.find? (fun b => b.author_id == author.id && b.title == data.title)).isSome then
    .error ⟨400, "Book with this title already exists for this author"⟩
  else
    let book : Book := {
      id := newId,
      author_id := author.id,
      title := data.title,
      description := data.description,
      genre := data.genre,
      total_pages := data.total_pages,
      cover_image_url := none,
      file_url := none,
      is_published := false,
      published_at := none,
      read_count := 0,
      created_at := now,
      updated_at := now }
    let db1 := { db with books := db.books ++ [book] }
    let db2 := db1.putAuthor { author with total_books := author.total_books + 1 }
    .ok (db1, db2, book)

/-- Title validation part of `BookService.update_book` (lines 182-205):
format check, then per-author uniqueness excluding the book's own id. -/
def update_book_title_check (db : DB) (book : Book) (data : BookUpdate) :
    Option HTTPError :=
  match data.title with
  | none => none
  | some title =>
    let issues := validate_book_title title
    if issues ≠ [] then
      some ⟨400, "Book title validation failed: " ++ String.intercalate ", " issues⟩
    else if (db.books.find? (fun b =>
        b.author_id == book.author_id && b.title == title && !(b.id == book.id))).isSome then
      some ⟨400, "Book with this title already exists for this author"⟩
    else none

/-- Field application part of `BookService.update_book` (lines 207-221). -/
def apply_book_patch (book : Book) (data : BookUpdate) (now : Nat) : Book :=
  let b1 := match data.title with
    | some t => { book with title := t }
    | none => book
  let b2 := match data.description with
    | some d => { b1 with description := some d }
    | none => b1
  let b3 := match data.genre with
    | some g => { b2 with genre := some g }
    | none => b2
  let b4 := match data.total_pages with
    | some t => { b3 with total_pages := some t }
    | none => b3
  let b5 := match data.is_published with
    | some p =>
      let b := { b4 with is_published := p }
      if p ∧ b.published_at = none then { b with published_at := some now } else b
    | none => b4
  { b5 with updated_at := now }

/-- `BookService.update_book` (lines 164-225).  Partial patch; when
`is_published` is supplied it is assigned, and `published_at` is stamped
only when the patch value is `true` and `published_at` is currently unset
(`not book.published_at`); a `false` patch value clears nothing.  Commits
once. -/
def update_book (db : DB) (book : Book) (data : BookUpdate) (now : Nat) :
    Except HTTPError (DB × Book) :=
  match update_book_title_check db book data with
  | some e => .error e
  | none =>
    let b6 := apply_book_patch book data now
    .ok (db.putBook b6, b6)

/-- `BookService.delete_book` (lines 227-248): loads the owning author,
deletes the book (the ORM cascade also deletes the book's
`ReadingProgress` rows), floors the author's `total_books` decrement at 0,
and commits once. -/
def delete_book (db : DB) (book : Book) : DB × Bool :=
  let author? := db.getAuthor book.author_id
  let db1 := { db with
    books := db.books.filter (fun b => !(b.id == book.id)),
    progresses := db.progresses.filter (fun r => !(r.book_id == book.id)) }
  match author? with
  | some a => (db1.putAuthor { a with total_books := max 0 (a.total_books - 1) }, true)
  | none => (db1, true)

end BookService

/-! ## Auth service (from `app/services/auth_service.py` and
`app/utils/security.py`) -/

/-- `get_user_by_username` (`app/utils/security.py` lines 121-148): lookup
by username first, then by email. -/
def get_user_by_username (db : DB) (username : String) : Option User :=
  match db.users.find? (fun u => u.username == username) with
  | some u => some u
  | none => db.users.find? (fun u => u.email == username)

namespace AuthService

/-- `AuthService._validate_registration_data` (lines 185-217). -/
def validate_registration_data (d : UserRegister) : Option HTTPError :=
  let usernameIssues := validate_username d.username
  if usernameIssues ≠ [] then
    some ⟨400, "Username validation failed: " ++ String.intercalate ", " usernameIssues⟩
  else
    let emailIssues := validate_email d.email
    if emailIssues ≠ [] then
      some ⟨400, "Email validation failed: " ++ String.intercalate ", " emailIssues⟩
    else
      let passwordIssues := validate_password_strength d.password
      if passwordIssues ≠ [] then
        some ⟨400, "Password validation failed: " ++ String.intercalate ", " passwordIssues⟩
      else none

/-- `AuthService.register_user` (lines 46-125).  Validates, then checks the
username (via the username-or-email lookup), then the email (same lookup
applied to the email), creates the user (commit), optionally the author
profile (commit), issues the token, stamps `last_login` (commit).  The
committed states are returned in order. -/
def register_user (db : DB) (d : UserRegister) (hashFn : String → String)
    (newUserId newAuthorId now : Nat) :
    Except HTTPError (List DB × User × TokenClaims) :=
  match validate_registration_data d with
  | some e => .error e
  | none =>
    if (get_user_by_username db d.username).isSome then
      .error ⟨400, "Username already registered"⟩
    else if (get_user_by_username db d.email).isSome then
      .error ⟨400, "Email already registered"⟩
    else
      let user : User := {
        id := newUserId,
        username := d.username,
        email := d.email,
        password_hash := hashFn d.password,
        first_name := d.first_name,
        last_name := d.last_name,
        is_author := d.is_author,
        is_active := true,
        last_login := none }
      let db1 := { db with users := db.users ++ [user] }
      let authorCommits : List DB :=
        if d.is_author then
          let penName := match d.first_name with
            | some s => if s = "" then d.username else s
            | none => d.username
          let author : Author := {
            id := newAuthorId,
            user_id := user.id,
            pen_name := penName,
            total_books := 0,
            total_reads := 0 }
          [{ db1 with authors := db1.authors ++ [author] }]
        else []
      let dbA := authorCommits.getLastD db1
      let claims : TokenClaims := {
        sub := user.username,
        user_id := user.id,
        is_author := user.is_author }
      let user' := { user with last_login := some now }
      let db3 := dbA.putUser user'
      .ok ([db1] ++ authorCommits ++ [db3], user', claims)

/-- `AuthService.login_user` (lines 127-183): username-or-email lookup,
password verification, active check, `last_login` stamp (one commit).  The
two failure modes raise the *same* 401 error. -/
def login_user (db : DB) (identifier password : String)
    (verifyFn : String → String → Bool) (now : Nat) :
    Except HTTPError (DB × User × TokenClaims) :=
  match get_user_by_username db identifier with
  | none => .error ⟨401, "Incorrect username or password"⟩
  | some user =>
    if verifyFn password user.password_hash = false then
      .error ⟨401, "Incorrect username or password"⟩
    else if user.is_active = false then
      .error ⟨400, "Inactive user account"⟩
    else
      let claims : TokenClaims := {
        sub := user.username,
        user_id := user.id,
        is_author := user.is_author }
      let user' := { user with last_login := some now }
      .ok (db.putUser user', user', claims)

end AuthService

/-! ## Derived predicates used by the statements -/

/-- Number of `ReadingProgress` rows for the pair `(u, b)`. -/
def DB.pairCount (db : DB) (u b : Nat) : Nat :=
  db.progresses.countP (fun r => r.user_id == u && r.book_id == b)

/-- At most one `ReadingProgress` row per `(user_id, book_id)` pair (the
`unique_user_book_progress` constraint of
`app/models/reading_progress.py`). -/
def DB.pairUnique (db : DB) : Prop :=
  ∀ u b, db.pairCount u b ≤ 1

/-- Number of `Book` rows belonging to the given author. -/
def DB.authorBookCount (db : DB) (aid : Nat) : Nat :=
  db.books.countP (fun b => b.author_id == aid)

/-- Every author's `total_books` equals the number of its book rows. -/
def DB.totalBooksConsistent (db : DB) : Prop :=
  ∀ a ∈ db.authors, a.total_books = (db.authorBookCount a.id : Int)

/-! ## Concrete fixtures used by counterexamples and witnesses -/

/-- A reader account. -/
def exReader : User :=
  { id := 1, username := "reader", email := "reader@example.com",
    password_hash := "hsh", is_author := false, is_active := true }

/-- An author account's profile with no books yet. -/
def exAuthor : Author :=
  { id := 1, user_id := 2, pen_name := "Jane", total_books := 0, total_reads := 0 }

/-- A published 200-page book. -/
def exBook : Book :=
  { id := 1, author_id := 1, title := "Moons", is_published := true,
    total_pages := some 200, read_count := 0 }

/-- A progress row at page 1 of the 200-page book. -/
def exProgress : ReadingProgress :=
  { id := 7, user_id := 1, book_id := 1, current_page := 1,
    total_pages := some 200, is_completed := false }

/-- Store with the reader, the author, the book, and no progress rows. -/
def exDB0 : DB :=
  { users := [exReader], authors := [exAuthor], books := [exBook], progresses := [] }

/-- Store with the reader, the author, the book, and the progress row. -/
def exDB : DB :=
  { exDB0 with progresses := [exProgress] }

/-- The progress row created by `start_reading exDB0 exReader exBook 9 5`. -/
def exStartRow : ReadingProgress :=
  { id := 9, user_id := 1, book_id := 1, current_page := 1,
    total_pages := some 200, reading_time_minutes := 0, is_completed := false,
    started_at := 5, last_read_at := none, completed_at := none,
    created_at := 5, updated_at := 5 }

/-- First committed state of that `start_reading` call. -/
def exStartDB1 : DB :=
  { exDB0 with progresses := exDB0.progresses ++ [exStartRow] }

/-- Second committed state of that `start_reading` call. -/
def exStartDB2 : DB :=
  exStartDB1.putBook exBook.increment_read_count

/-- The book created by `create_book exDB0 exAuthor { title := "Aurora" } 2 5`. -/
def exNewBook : Book :=
  { id := 2, author_id := 1, title := "Aurora", description := none,
    genre := none, total_pages := none, cover_image_url := none,
    file_url := none, is_published := false, published_at := none,
    read_count := 0, created_at := 5, updated_at := 5 }

/-- First committed state of that `create_book` call. -/
def exCreateDB1 : DB :=
  { exDB0 with books := exDB0.books ++ [exNewBook] }

/-- Second committed state of that `create_book` call. -/
def exCreateDB2 : DB :=
  exCreateDB1.putAuthor { exAuthor with total_books := exAuthor.total_books + 1 }

/-- The author profile with its counter consistent with the one book. -/
def exAuthor1 : Author :=
  { exAuthor with total_books := 1 }

/-- A counter-consistent store: one author (`total_books = 1`), one book. -/
def exDBC : DB :=
  { exDB0 with authors := [exAuthor1] }

/-- First committed state of `create_book exDBC exAuthor1 { title := "Aurora" } 2 5`. -/
def exCreateC1 : DB :=
  { exDBC with books := exDBC.books ++ [exNewBook] }

/-- Second committed state of that call. -/
def exCreateC2 : DB :=
  exCreateC1.putAuthor { exAuthor1 with total_books := exAuthor1.total_books + 1 }

/-- A completed progress row (used to exercise the status transitions). -/
def exProgressDone : ReadingProgress :=
  { exProgress with is_completed := true, completed_at := some 3 }

/-- Store holding the completed progress row. -/
def exDBDone : DB :=
  { exDB0 with progresses := [exProgressDone] }

/-- Result row of a `status="reading"` service update on the completed row. -/
def exBackToReading : ReadingProgress :=
  ReadingService.apply_progress_update exProgressDone { status := some "reading" } 5

/-! ## General list lemmas -/

theorem countP_filter_le {α} (l : List α) (p q : α → Bool) :
    (l.filter q).countP p ≤ l.countP p := by
  induction l with
  | nil => simp
  | cons x t ih =>
    by_cases hq : q x
    · rw [List.filter_cons_of_pos hq, List.countP_cons, List.countP_cons]
      by_cases hp : p x <;> simp [hp] <;> omega
    · rw [List.filter_cons_of_neg hq, List.countP_cons]
      by_cases hp : p x <;> simp [hp] <;> omega

theorem countP_congr_mem {α} {l : List α} {p q : α → Bool}
    (h : ∀ x ∈ l, p x = q x) : l.countP p = l.countP q := by
  induction l with
  | nil => rfl
  | cons x t ih =>
    rw [List.countP_cons, List.countP_cons,
      ih (fun y hy => h y (List.mem_cons_of_mem _ hy)), h x (List.mem_cons_self _ _)]

theorem eq_of_mem_of_key_nodup {α β} (key : α → β) {l : List α}
    (hnd : (l.map key).Nodup) {x y : α} (hx : x ∈ l) (hy : y ∈ l)
    (hk : key x = key y) : x = y := by
  induction l with
  | nil => cases hx
  | cons a t ih =>
    rw [List.map_cons, List.nodup_cons] at hnd
    rcases List.mem_cons.mp hx with rfl | hx'
    · rcases List.mem_cons.mp hy with rfl | hy'
      · rfl
      · exact absurd (hk ▸ List.mem_map_of_mem key hy') hnd.1
    · rcases List.mem_cons.mp hy with rfl | hy'
      · exact absurd (hk ▸ List.mem_map_of_mem key hx') hnd.1
      · exact ih hnd.2 hx' hy'

theorem countP_filter_key_ne {α} (key : α → Nat) {l : List α} {x0 : α}
    (hmem : x0 ∈ l) (hnd : (l.map key).Nodup) (p : α → Bool) :
    (l.filter (fun a => !(key a == key x0))).countP p
      = l.countP p - (if p x0 then 1 else 0) := by
  induction l with
  | nil => cases hmem
  | cons a t ih =>
    rw [List.map_cons, List.nodup_cons] at hnd
    rcases List.mem_cons.mp hmem with rfl | hmem'
    · have ht : ∀ y ∈ t, key y ≠ key x0 :=
        fun y hy he => hnd.1 (he ▸ List.mem_map_of_mem key hy)
      have hfil : t.filter (fun a => !(key a == key x0)) = t :=
        List.filter_eq_self.mpr (fun y hy => by simp [ht y hy])
      rw [List.filter_cons_of_neg (by simp), hfil, List.countP_cons]
      by_cases hp : p x0 <;> simp [hp]
    · have hka : key a ≠ key x0 :=
        fun he => hnd.1 (he ▸ List.mem_map_of_mem key hmem')
      rw [List.filter_cons_of_pos (by simp [hka]), List.countP_cons,
        List.countP_cons, ih hmem' hnd.2]
      by_cases hp : p x0
      · have hcp : 0 < t.countP p := List.countP_pos_iff.mpr ⟨x0, hmem', hp⟩
        by_cases hpa : p a <;> simp only [hp, hpa, if_pos, if_neg] <;> omega
      · by_cases hpa : p a <;> simp [hp, hpa]

theorem countP_map_replace {α} (key : α → Nat) {l : List α} {old new_ : α}
    (hnd : (l.map key).Nodup) (hold : old ∈ l) (hkey : key new_ = key old)
    (p : α → Bool) (hp : p new_ = p old) :
    (l.map (fun x => if key x == key new_ then new_ else x)).countP p
      = l.countP p := by
  rw [List.countP_map]
  refine countP_congr_mem (fun x hx => ?_)
  by_cases hid : key x == key new_
  · have hxk : key x = key new_ := by simpa using hid
    have hxo : x = old := eq_of_mem_of_key_nodup key hnd hx hold (hxk.trans hkey)
    subst hxo
    simp only [Function.comp_apply, if_pos hid, hp]
  · simp only [Function.comp_apply, if_neg hid]

/-! ## Lemmas about the patch-application helpers -/

theorem apply_book_patch_publish_fields (book : Book) (d : BookUpdate) (now : Nat) :
    (d.is_published = some false →
      (BookService.apply_book_patch book d now).is_published = false ∧
      (BookService.apply_book_patch book d now).published_at = book.published_at) ∧
    (d.is_published = some true →
      (BookService.apply_book_patch book d now).is_published = true ∧
      (BookService.apply_book_patch book d now).published_at =
        (if book.published_at = none then some now else book.published_at)) := by
  rcases d with ⟨dt, dd, dg, dtp, dp⟩
  constructor <;> intro h <;> cases h <;>
    cases dt <;> cases dd <;> cases dg <;> cases dtp <;>
    by_cases hpn : book.published_at = none <;>
    simp [BookService.apply_book_patch, hpn]

theorem apply_progress_update_reading (rp : ReadingProgress)
    (p : ReadingProgressUpdate) (now : Nat) (h : p.status = some "reading") :
    (ReadingService.apply_progress_update rp p now).is_completed = false ∧
    (ReadingService.apply_progress_update rp p now).completed_at = rp.completed_at := by
  rcases p with ⟨pc, ps, pn⟩
  cases h
  cases pc <;> simp [ReadingService.apply_progress_update]

theorem apply_progress_update_completed_at (rp : ReadingProgress)
    (p : ReadingProgressUpdate) (now : Nat) :
    (ReadingService.apply_progress_update rp p now).completed_at = rp.completed_at ∨
    (ReadingService.apply_progress_update rp p now).completed_at = some now := by
  rcases p with ⟨pc, ps, pn⟩
  rcases ps with _ | s
  · cases pc <;> simp [ReadingService.apply_progress_update]
  · by_cases h1 : s = "completed" <;> by_cases h2 : s = "reading" <;>
      cases pc <;> simp [ReadingService.apply_progress_update, h1, h2]

theorem apply_progress_update_no_status (rp : ReadingProgress)
    (p : ReadingProgressUpdate) (now : Nat) (h : p.status = none) :
    (ReadingService.apply_progress_update rp p now).is_completed = rp.is_completed ∧
    (ReadingService.apply_progress_update rp p now).completed_at = rp.completed_at := by
  rcases p with ⟨pc, ps, pn⟩
  cases h
  cases pc <;> simp [ReadingService.apply_progress_update]

theorem apply_progress_update_keeps_pair (rp : ReadingProgress)
    (p : ReadingProgressUpdate) (now : Nat) :
    (ReadingService.apply_progress_update rp p now).user_id = rp.user_id ∧
    (ReadingService.apply_progress_update rp p now).book_id = rp.book_id ∧
    (ReadingService.apply_progress_update rp p now).id = rp.id := by
  rcases p with ⟨pc, ps, pn⟩
  rcases ps with _ | s
  · cases pc <;> simp [ReadingService.apply_progress_update]
  · by_cases h1 : s = "completed" <;> by_cases h2 : s = "reading" <;>
      cases pc <;> simp [ReadingService.apply_progress_update, h1, h2]

/-- Successful `update_progress` returns the applied patch and replaces the
row in the single committed state. -/
theorem update_progress_ok_shape {db : DB} {rp : ReadingProgress}
    {p : ReadingProgressUpdate} {now : Nat} {db' : DB} {rp' : ReadingProgress}
    (hok : ReadingService.update_progress db rp p now = .ok (db', rp')) :
    rp' = ReadingService.apply_progress_update rp p now ∧
    db' = db.putProgress (ReadingService.apply_progress_update rp p now) := by
  unfold ReadingService.update_progress at hok
  split at hok
  · cases hok
  · simp only [Except.ok.injEq, Prod.mk.injEq] at hok
    exact ⟨hok.2.symm, hok.1.symm⟩

/-- Successful `update_book` returns the applied patch and replaces the row
in the single committed state. -/
theorem update_book_ok_shape {db : DB} {book : Book} {d : BookUpdate}
    {now : Nat} {db' : DB} {b' : Book}
    (hok : BookService.update_book db book d now = .ok (db', b')) :
    b' = BookService.apply_book_patch book d now ∧
    db' = db.putBook (BookService.apply_book_patch book d now) := by
  unfold BookService.update_book at hok
  split at hok
  · cases hok
  · simp only [Except.ok.injEq, Prod.mk.injEq] at hok
    exact ⟨hok.2.symm, hok.1.symm⟩

/-! ## Claim C7 -/

/-- C7: for every user and every unpublished book, `start_reading` fails
with the state error ("Cannot start reading an unpublished book", HTTP 400)
before reaching any write: it returns no committed state, so no
`ReadingProgress` row is created and `read_count` is not incremented. -/
theorem C7_start_unpublished_fails (db : DB) (u : User) (b : Book)
    (newId now : Nat) (h : b.is_published = false) :
    ReadingService.start_reading db u b newId now =
      .error ⟨400, "Cannot start reading an unpublished book"⟩ := by
  simp [ReadingService.start_reading, h]

/-- Witness for C7 at a concrete unpublished book. -/
theorem C7_start_unpublished_fails_witness :
    ReadingService.start_reading exDB exReader exBook.unpublish 9 5 =
      .error ⟨400, "Cannot start reading an unpublished book"⟩ :=
  C7_start_unpublished_fails exDB exReader exBook.unpublish 9 5 rfl

/-! ## Claim C9 -/

/-- C9: login failure is indistinguishable between "no such user" and
"wrong password": both paths of `login_user` return the same error value —
status 401 with the character-for-character identical message
"Incorrect username or password" — for every store, identifier, password
and verification function. -/
theorem C9_login_error_indistinguishable (db : DB) (ident pwd : String)
    (verifyFn : String → String → Bool) (now : Nat) :
    (get_user_by_username db ident = none →
      AuthService.login_user db ident pwd verifyFn now =
        .error ⟨401, "Incorrect username or password"⟩) ∧
    (∀ u : User, get_user_by_username db ident = some u →
      verifyFn pwd u.password_hash = false →
      AuthService.login_user db ident pwd verifyFn now =
        .error ⟨401, "Incorrect username or password"⟩) := by
  constructor
  · intro h
    simp [AuthService.login_user, h]
  · intro u hu hv
    simp [AuthService.login_user, hu, hv]

/-- Witness for C9: a missing account and a wrong password produce the
same error value. -/
theorem C9_login_error_indistinguishable_witness :
    AuthService.login_user exDB "ghost" "pw" (fun p h => p == h) 5 =
      .error ⟨401, "Incorrect username or password"⟩ ∧
    AuthService.login_user exDB "reader" "wrong" (fun p h => p == h) 5 =
      .error ⟨401, "Incorrect username or password"⟩ :=
  ⟨(C9_login_error_indistinguishable exDB "ghost" "pw" (fun p h => p == h) 5).1 rfl,
   (C9_login_error_indistinguishable exDB "reader" "wrong" (fun p h => p == h) 5).2
     exReader rfl rfl⟩

/-! ## Claim C5 -/

/-- C5: unpublishing is asymmetric between the two paths.  A generic
`update_book` patch with `is_published = false` sets the flag but leaves
`published_at` untouched; the dedicated `Book.unpublish` clears
`published_at` to `None`; a patch with `is_published = true` stamps
`published_at = now` only when it is currently unset and keeps the old
stamp otherwise. -/
theorem C5_unpublish_asymmetry :
    (∀ (db : DB) (book : Book) (d : BookUpdate) (now : Nat) (db' : DB) (b' : Book),
      d.is_published = some false →
      BookService.update_book db book d now = .ok (db', b') →
      b'.is_published = false ∧ b'.published_at = book.published_at) ∧
    (∀ b : Book, b.unpublish.is_published = false ∧ b.unpublish.published_at = none) ∧
    (∀ (db : DB) (book : Book) (d : BookUpdate) (now : Nat) (db' : DB) (b' : Book),
      d.is_published = some true → book.published_at = none →
      BookService.update_book db book d now = .ok (db', b') →
      b'.is_published = true ∧ b'.published_at = some now) ∧
    (∀ (db : DB) (book : Book) (d : BookUpdate) (now : Nat)
        (db' : DB) (b' : Book) (t0 : Nat),
      d.is_published = some true → book.published_at = some t0 →
      BookService.update_book db book d now = .ok (db', b') →
      b'.is_published = true ∧ b'.published_at = some t0) := by
  refine ⟨?_, ?_, ?_, ?_⟩
  · intro db book d now db' b' hd hok
    obtain ⟨rfl, -⟩ := update_book_ok_shape hok
    exact (apply_book_patch_publish_fields book d now).1 hd
  · intro b
    exact ⟨rfl, rfl⟩
  · intro db book d now db' b' hd hpn hok
    obtain ⟨rfl, -⟩ := update_book_ok_shape hok
    have h := (apply_book_patch_publish_fields book d now).2 hd
    rw [if_pos hpn] at h
    exact h
  · intro db book d now db' b' t0 hd hpn hok
    obtain ⟨rfl, -⟩ := update_book_ok_shape hok
    have h := (apply_book_patch_publish_fields book d now).2 hd
    rw [hpn] at h
    simpa using h

/-- Witness for C5: a published book patched with `is_published = false`
keeps its old `published_at`, and a fresh publish via patch stamps it. -/
theorem C5_unpublish_asymmetry_witness :
    (BookService.apply_book_patch (exBook.publish 3) { is_published := some false } 5).is_published
        = false ∧
    (BookService.apply_book_patch (exBook.publish 3) { is_published := some false } 5).published_at
        = (exBook.publish 3).published_at ∧
    (exBook.publish 3).unpublish.published_at = none ∧
    (BookService.apply_book_patch exBook { is_published := some true } 5).published_at
        = some 5 ∧
    (BookService.apply_book_patch (exBook.publish 3) { is_published := some true } 5).published_at
        = some 3 := by
  have h1 := C5_unpublish_asymmetry.1 exDB (exBook.publish 3)
    { is_published := some false } 5 _ _ rfl rfl
  have h2 := C5_unpublish_asymmetry.2.1 (exBook.publish 3)
  have h3 := C5_unpublish_asymmetry.2.2.1 exDB exBook
    { is_published := some true } 5 _ _ rfl rfl rfl
  have h4 := C5_unpublish_asymmetry.2.2.2 exDB (exBook.publish 3)
    { is_published := some true } 5 _ _ 3 rfl rfl rfl
  exact ⟨h1.1, h1.2, h2.2, h3.2, h4.2⟩

/-! ## Claim C10 -/

/-- C10: on a completed row, a service update with `status = "reading"`
sets `is_completed` back to `false` but leaves `completed_at` at its old
value (so a row can be not-completed yet carry a `completed_at` stamp);
a service update never clears `completed_at` (it either keeps it or sets
it to `now`); `reset_progress` is the operation that clears `completed_at`
to `None`; `mark_completed` always stamps it. -/
theorem C10_reading_status_keeps_completed_at :
    (∀ (db : DB) (rp : ReadingProgress) (p : ReadingProgressUpdate) (now : Nat)
        (db' : DB) (rp' : ReadingProgress),
      p.status = some "reading" →
      ReadingService.update_progress db rp p now = .ok (db', rp') →
      rp'.is_completed = false ∧ rp'.completed_at = rp.completed_at) ∧
    (∀ (db : DB) (rp : ReadingProgress) (p : ReadingProgressUpdate) (now : Nat)
        (db' : DB) (rp' : ReadingProgress),
      ReadingService.update_progress db rp p now = .ok (db', rp') →
      rp'.completed_at = rp.completed_at ∨ rp'.completed_at = some now) ∧
    (∀ (rp : ReadingProgress) (now : Nat),
      (rp.reset_progress now).completed_at = none ∧
      (rp.reset_progress now).is_completed = false ∧
      (rp.reset_progress now).current_page = 1 ∧
      (rp.reset_progress now).reading_time_minutes = 0) ∧
    (∀ (rp : ReadingProgress) (now : Nat),
      (rp.mark_completed now).is_completed = true ∧
      (rp.mark_completed now).completed_at = some now) := by
  refine ⟨?_, ?_, ?_, ?_⟩
  · intro db rp p now db' rp' hst hok
    obtain ⟨rfl, -⟩ := update_progress_ok_shape hok
    exact apply_progress_update_reading rp p now hst
  · intro db rp p now db' rp' hok
    obtain ⟨rfl, -⟩ := update_progress_ok_shape hok
    exact apply_progress_update_completed_at rp p now
  · intro rp now
    exact ⟨rfl, rfl, rfl, rfl⟩
  · intro rp now
    unfold ReadingProgress.mark_completed
    rcases htp : rp.total_pages with _ | t
    · simp [htp]
    · by_cases ht : t = 0 <;> simp [htp, ht]

/-- Witness for C10: the completed fixture row, updated with
`status = "reading"`, is no longer completed but still carries its old
`completed_at = some 3`. -/
theorem C10_reading_status_keeps_completed_at_witness :
    exBackToReading.is_completed = false ∧
    exBackToReading.completed_at = some 3 ∧
    (exProgressDone.reset_progress 9).completed_at = none ∧
    (exProgressDone.mark_completed 9).completed_at = some 9 := by
  have h1 := C10_reading_status_keeps_completed_at.1 exDBDone exProgressDone
    { status := some "reading" } 5
    (exDBDone.putProgress exBackToReading) exBackToReading rfl rfl
  have h2 := (C10_reading_status_keeps_completed_at.2.2.1 exProgressDone 9).1
  have h3 := (C10_reading_status_keeps_completed_at.2.2.2 exProgressDone 9).2
  exact ⟨h1.1, h1.2, h2, h3⟩

/-! ## Claim C2 -/

/-- `round2` is monotone (the rounding of `round(x, 2)`). -/
theorem round2_mono {x y : ℚ} (h : x ≤ y) :
    ReadingService.round2 x ≤ ReadingService.round2 y := by
  unfold ReadingService.round2
  have hr : round (x * 100) ≤ round (y * 100) := by
    rw [round_eq, round_eq]
    exact Int.floor_le_floor (by linarith)
  have hq : ((round (x * 100) : ℤ) : ℚ) ≤ ((round (y * 100) : ℤ) : ℚ) := by
    exact_mod_cast hr
  linarith

/-- C2 counterexample: the claim asserts the derived percentage "is exactly
0 (not null and not an error) whenever total_pages is unknown or <= 0 — for
both the model property and the service helper", and that it "always lies
in [0, 100]".  The service helper
`ReadingService.calculate_progress_percentage` — the one used to build
currently-reading and history responses — returns `none` (null) in all of
those cases, and returns 200 (not clamped to 100) when the stored page
exceeds the book's page count. -/
theorem C2_counterexample :
    ReadingService.calculate_progress_percentage 1 none = none ∧
    ReadingService.calculate_progress_percentage 1 (some 0) = none ∧
    ReadingService.calculate_progress_percentage 1 (some (-5)) = none ∧
    ReadingService.calculate_progress_percentage 2 (some 1) = some 200 := by
  refine ⟨rfl, by norm_num [ReadingService.calculate_progress_percentage],
    by norm_num [ReadingService.calculate_progress_percentage], ?_⟩
  norm_num [ReadingService.calculate_progress_percentage, ReadingService.round2, round_eq]

/-- C2 amended: the model property `progress_percentage` is monotonically
non-decreasing in `current_page` at fixed non-negative-or-unknown
`total_pages`, lies in `[0, 100]` for non-negative `current_page`, and is
exactly 0 when `total_pages` is unknown or zero; the service helper
`calculate_progress_percentage` instead returns `none` (null, not 0) when
`total_pages` is unknown or ≤ 0, and on known positive `total_pages` it is
monotone (though unclamped above 100, as the counterexample shows). -/
theorem C2_percentage_amended :
    (∀ (rp : ReadingProgress) (c c' : Int), c ≤ c' →
      (rp.total_pages = none ∨ ∃ t, rp.total_pages = some t ∧ 0 ≤ t) →
      ({ rp with current_page := c } : ReadingProgress).progress_percentage ≤
        ({ rp with current_page := c' } : ReadingProgress).progress_percentage) ∧
    (∀ rp : ReadingProgress, 0 ≤ rp.current_page →
      (rp.total_pages = none ∨ ∃ t, rp.total_pages = some t ∧ 0 ≤ t) →
      0 ≤ rp.progress_percentage ∧ rp.progress_percentage ≤ 100) ∧
    (∀ rp : ReadingProgress, (rp.total_pages = none ∨ rp.total_pages = some 0) →
      rp.progress_percentage = 0) ∧
    (∀ (c : Int) (t : Option Int), (t = none ∨ ∃ n, t = some n ∧ n ≤ 0) →
      ReadingService.calculate_progress_percentage c t = none) ∧
    (∀ (c c' t : Int) (q q' : ℚ), 0 < t → c ≤ c' →
      ReadingService.calculate_progress_percentage c (some t) = some q →
      ReadingService.calculate_progress_percentage c' (some t) = some q' →
      q ≤ q') := by
  refine ⟨?_, ?_, ?_, ?_, ?_⟩
  · intro rp c c' hle htp
    rcases htp with hn | ⟨t, ht, ht0⟩
    · simp [ReadingProgress.progress_percentage, hn]
    · rcases eq_or_lt_of_le ht0 with h0 | hpos
      · simp [ReadingProgress.progress_percentage, ht, ← h0]
      · have htne : ¬ t = 0 := by omega
        have htq : (0:ℚ) < (t:ℚ) := by exact_mod_cast hpos
        have hcq : ((c:ℚ)) ≤ ((c':ℚ)) := by exact_mod_cast hle
        simp only [ReadingProgress.progress_percentage, ht, if_neg htne]
        gcongr
  · intro rp hcp htp
    rcases htp with hn | ⟨t, ht, ht0⟩
    · simp [ReadingProgress.progress_percentage, hn]
    · rcases eq_or_lt_of_le ht0 with h0 | hpos
      · simp [ReadingProgress.progress_percentage, ht, ← h0]
      · have htne : ¬ t = 0 := by omega
        have htq : (0:ℚ) < (t:ℚ) := by exact_mod_cast hpos
        have hcq : (0:ℚ) ≤ ((rp.current_page : ℤ) : ℚ) := by exact_mod_cast hcp
        simp only [ReadingProgress.progress_percentage, ht, if_neg htne]
        constructor
        · exact le_min (by norm_num) (by positivity)
        · exact min_le_left _ _
  · intro rp htp
    rcases htp with hn | h0
    · simp [ReadingProgress.progress_percentage, hn]
    · simp [ReadingProgress.progress_percentage, h0]
  · intro c t h
    rcases h with rfl | ⟨n, rfl, hn⟩
    · rfl
    · simp [ReadingService.calculate_progress_percentage, hn]
  · intro c c' t q q' ht hle h1 h2
    have htn : ¬ t ≤ 0 := by omega
    simp only [ReadingService.calculate_progress_percentage, if_neg htn,
      Option.some.injEq] at h1 h2
    subst h1
    subst h2
    have htq : (0:ℚ) < (t:ℚ) := by exact_mod_cast ht
    have hcq : ((c:ℚ)) ≤ ((c':ℚ)) := by exact_mod_cast hle
    refine round2_mono ?_
    gcongr

/-- Witness for C2 amended at concrete pages and page counts. -/
theorem C2_percentage_amended_witness :
    (({ exProgress with current_page := 1 } : ReadingProgress).progress_percentage ≤
      ({ exProgress with current_page := 2 } : ReadingProgress).progress_percentage) ∧
    (0 ≤ exProgress.progress_percentage ∧ exProgress.progress_percentage ≤ 100) ∧
    ({ exProgress with total_pages := none } : ReadingProgress).progress_percentage = 0 ∧
    ReadingService.calculate_progress_percentage 5 (some (-3)) = none ∧
    ReadingService.round2 (((1 : Int) : ℚ) / ((200 : Int) : ℚ) * 100) ≤
      ReadingService.round2 (((2 : Int) : ℚ) / ((200 : Int) : ℚ) * 100) := by
  refine ⟨?_, ?_, ?_, ?_, ?_⟩
  · exact C2_percentage_amended.1 exProgress 1 2 (by norm_num)
      (Or.inr ⟨200, rfl, by norm_num⟩)
  · exact C2_percentage_amended.2.1 exProgress (by decide)
      (Or.inr ⟨200, rfl, by norm_num⟩)
  · exact C2_percentage_amended.2.2.1 _ (Or.inl rfl)
  · exact C2_percentage_amended.2.2.2.1 5 (some (-3)) (Or.inr ⟨-3, rfl, by norm_num⟩)
  · exact C2_percentage_amended.2.2.2.2 1 2 200 _ _ (by norm_num) (by norm_num)
      (by norm_num [ReadingService.calculate_progress_percentage])
      (by norm_num [ReadingService.calculate_progress_percentage])

/-! ## Claim C1 -/

/-- C1 counterexample: the claim asserts that a successful update supplying
`current_page = total_pages` with no status field forces
`is_completed = true`.  On the service path (`ReadingService.update_progress`,
the one behind the progress endpoint) this fails: updating the fixture row
(page 1 of 200, book known to the store with 200 pages) to page 200 with no
status succeeds and leaves `is_completed = false` and `completed_at = none`. -/
theorem C1_counterexample :
    (ReadingService.update_progress exDB exProgress { current_page := some 200 } 5).map
        (fun r => (r.2.is_completed, r.2.completed_at, r.2.current_page))
      = .ok (false, none, 200) ∧
    exProgress.total_pages = some 200 ∧
    exBook.total_pages = some 200 ∧
    exDB.getBook exProgress.book_id = some exBook :=
  ⟨rfl, rfl, rfl, rfl⟩

/-- C1 amended: the auto-completion rule holds for the model helper
`ReadingProgress.update_progress` (a page update reaching a known non-zero
`total_pages` forces `is_completed = true` and stamps `completed_at`), but
the service operation `ReadingService.update_progress` does not
auto-complete: with no explicit status field a successful page update
leaves `is_completed` and `completed_at` unchanged. -/
theorem C1_auto_completion_amended :
    (∀ (rp : ReadingProgress) (cp mins : Int) (now : Nat) (t : Int),
      rp.total_pages = some t → t ≠ 0 → t ≤ cp →
      (rp.update_progress cp mins now).is_completed = true ∧
      (rp.update_progress cp mins now).completed_at = some now) ∧
    (∀ (db : DB) (rp : ReadingProgress) (p : ReadingProgressUpdate) (now : Nat)
        (db' : DB) (rp' : ReadingProgress),
      p.status = none →
      ReadingService.update_progress db rp p now = .ok (db', rp') →
      rp'.is_completed = rp.is_completed ∧ rp'.completed_at = rp.completed_at) := by
  constructor
  · intro rp cp mins now t ht htne hge
    rcases rp with ⟨i, u, b, cpg, tp, rtm, ic, sa, lra, ca, cra, ua⟩
    simp only at ht
    subst ht
    simp [ReadingProgress.update_progress, ReadingProgress.mark_completed,
      htne, ge_iff_le, hge]
  · intro db rp p now db' rp' hst hok
    obtain ⟨rfl, -⟩ := update_progress_ok_shape hok
    exact apply_progress_update_no_status rp p now hst

/-- Witness for C1 amended: the model helper completes the fixture row at
page 200 of 200, while the service path at page 150 keeps the completion
fields unchanged. -/
theorem C1_auto_completion_amended_witness :
    (exProgress.update_progress 200 0 5).is_completed = true ∧
    (exProgress.update_progress 200 0 5).completed_at = some 5 ∧
    (ReadingService.apply_progress_update exProgress
        { current_page := some 150 } 5).is_completed = exProgress.is_completed ∧
    (ReadingService.apply_progress_update exProgress
        { current_page := some 150 } 5).completed_at = exProgress.completed_at := by
  have h1 := C1_auto_completion_amended.1 exProgress 200 0 5 200 rfl
    (by norm_num) (by norm_num)
  have h2 := C1_auto_completion_amended.2 exDB exProgress
    { current_page := some 150 } 5
    (exDB.putProgress (ReadingService.apply_progress_update exProgress
      { current_page := some 150 } 5))
    (ReadingService.apply_progress_update exProgress
      { current_page := some 150 } 5) rfl rfl
  exact ⟨h1.1, h1.2, h2.1, h2.2⟩

/-! ## Claim C3 -/

/-- C3 counterexample: the claim asserts there is no committed intermediate
state in which only part of an operation's writes are visible.  Starting
the fixture book commits twice: in the first committed state the new
progress row for the pair (1, 1) is already visible while the book's
`read_count` still shows 0; only the second committed state shows 1.
Likewise `create_book` first commits the new book row while the author's
`total_books` still shows 0, then commits the increment. -/
theorem C3_counterexample :
    (ReadingService.start_reading exDB0 exReader exBook 9 5).map
        (fun r => (r.1.progresses.map (fun q => (q.user_id, q.book_id)),
                   r.1.books.map Book.read_count,
                   r.2.1.books.map Book.read_count))
      = .ok ([(1, 1)], [0], [1]) ∧
    (BookService.create_book exDB0 exAuthor { title := "Aurora" } 2 5).map
        (fun r => (r.1.books.map Book.author_id,
                   r.1.authors.map Author.total_books,
                   r.2.1.authors.map Author.total_books))
      = .ok ([1, 1], [0], [1]) :=
  ⟨rfl, rfl⟩

/-- C3 amended: each single commit is atomic and a failing operation
commits nothing (an `error` result carries no committed state), but
`start_reading` and `create_book` are not atomic as whole operations: each
performs two commits — the first commits only the new row (every other
table unchanged), the second only the counter increment — so a committed
intermediate state exists in which the row is visible but the counter is
not yet incremented. -/
theorem C3_commit_granularity_amended :
    (∀ (db : DB) (u : User) (b : Book) (newId now : Nat)
        (db1 db2 : DB) (rp : ReadingProgress),
      ReadingService.start_reading db u b newId now = .ok (db1, db2, rp) →
      db1.progresses = db.progresses ++ [rp] ∧
      db1.books = db.books ∧ db1.users = db.users ∧ db1.authors = db.authors ∧
      db2 = db1.putBook b.increment_read_count) ∧
    (∀ (db : DB) (a : Author) (data : BookCreate) (newId now : Nat)
        (db1 db2 : DB) (bk : Book),
      BookService.create_book db a data newId now = .ok (db1, db2, bk) →
      db1.books = db.books ++ [bk] ∧
      db1.authors = db.authors ∧ db1.users = db.users ∧
      db1.progresses = db.progresses ∧
      db2 = db1.putAuthor { a with total_books := a.total_books + 1 }) := by
  constructor
  · intro db u b newId now db1 db2 rp hok
    unfold ReadingService.start_reading at hok
    split at hok
    · cases hok
    · split at hok
      · cases hok
      · simp only [Except.ok.injEq, Prod.mk.injEq] at hok
        obtain ⟨h1, h2, h3⟩ := hok
        subst h1
        subst h2
        subst h3
        exact ⟨rfl, rfl, rfl, rfl, rfl⟩
  · intro db a data newId now db1 db2 bk hok
    simp only [BookService.create_book] at hok
    split at hok
    · cases hok
    · split at hok
      · cases hok
      · simp only [Except.ok.injEq, Prod.mk.injEq] at hok
        obtain ⟨h1, h2, h3⟩ := hok
        subst h1
        subst h2
        subst h3
        exact ⟨rfl, rfl, rfl, rfl, rfl⟩

/-- Witness for C3 amended at the fixture store. -/
theorem C3_commit_granularity_amended_witness :
    exStartDB1.books = exDB0.books ∧
    exStartDB1.progresses = exDB0.progresses ++ [exStartRow] ∧
    exStartDB2 = exStartDB1.putBook exBook.increment_read_count ∧
    exCreateDB1.authors = exDB0.authors ∧
    exCreateDB2 = exCreateDB1.putAuthor
      { exAuthor with total_books := exAuthor.total_books + 1 } := by
  have h1 := C3_commit_granularity_amended.1 exDB0 exReader exBook 9 5
    exStartDB1 exStartDB2 exStartRow rfl
  have h2 := C3_commit_granularity_amended.2 exDB0 exAuthor
    { title := "Aurora" } 2 5 exCreateDB1 exCreateDB2 exNewBook rfl
  exact ⟨h1.2.1, h1.1, h1.2.2.2.2, h2.2.1, h2.2.2.2.2⟩

/-- Shape of a successful `start_reading`: the two committed states, the
created row, and the absence of a prior row for the pair. -/
theorem start_reading_ok_shape {db : DB} {u : User} {b : Book}
    {newId now : Nat} {db1 db2 : DB} {rp : ReadingProgress}
    (hok : ReadingService.start_reading db u b newId now = .ok (db1, db2, rp)) :
    db1 = { db with progresses := db.progresses ++ [rp] } ∧
    db2 = db1.putBook b.increment_read_count ∧
    rp = { id := newId, user_id := u.id, book_id := b.id, current_page := 1,
           total_pages := b.total_pages, reading_time_minutes := 0,
           is_completed := false, started_at := now, last_read_at := none,
           completed_at := none, created_at := now, updated_at := now } ∧
    db.progresses.find? (fun r => r.user_id == u.id && r.book_id == b.id) = none := by
  unfold ReadingService.start_reading at hok
  split at hok
  · cases hok
  · split at hok
    · cases hok
    · rename_i hfind
      simp only [Except.ok.injEq, Prod.mk.injEq] at hok
      obtain ⟨h1, h2, h3⟩ := hok
      subst h1
      subst h2
      subst h3
      exact ⟨rfl, rfl, rfl, Option.not_isSome_iff_eq_none.mp hfind⟩

/-- Shape of a successful `create_book`: the two committed states and the
created row. -/
theorem create_book_ok_shape {db : DB} {author : Author} {data : BookCreate}
    {newId now : Nat} {db1 db2 : DB} {bk : Book}
    (hok : BookService.create_book db author data newId now = .ok (db1, db2, bk)) :
    db1 = { db with books := db.books ++ [bk] } ∧
    db2 = db1.putAuthor { author with total_books := author.total_books + 1 } ∧
    bk = { id := newId, author_id := author.id, title := data.title,
           description := data.description, genre := data.genre,
           cover_image_url := none, file_url := none, is_published := false,
           published_at := none, total_pages := data.total_pages,
           read_count := 0, created_at := now, updated_at := now } := by
  simp only [BookService.create_book] at hok
  split at hok
  · cases hok
  · split at hok
    · cases hok
    · simp only [Except.ok.injEq, Prod.mk.injEq] at hok
      obtain ⟨h1, h2, h3⟩ := hok
      subst h1
      subst h2
      subst h3
      exact ⟨rfl, rfl, rfl⟩

/-- The book patch never touches the primary key or the owner. -/
theorem apply_book_patch_keeps_ids (book : Book) (d : BookUpdate) (now : Nat) :
    (BookService.apply_book_patch book d now).id = book.id ∧
    (BookService.apply_book_patch book d now).author_id = book.author_id := by
  rcases d with ⟨dt, dd, dg, dtp, dp⟩
  cases dt <;> cases dd <;> cases dg <;> cases dtp <;> rcases dp with _ | p <;>
    (try cases p) <;> by_cases hpn : book.published_at = none <;>
    simp [BookService.apply_book_patch, hpn]

/-! ## Claim C4 -/

/-- C4: per-pair uniqueness.  Starting a book already being read by the
same user fails with the conflict error (committing nothing); a successful
start preserves `pairUnique` in both committed states; the service update
(which never changes a row's pair) and both delete operations preserve it
as well — so `count(ReadingProgress where user_id=U and book_id=B) <= 1`
holds at all times. -/
theorem C4_one_progress_row_per_pair :
    (∀ (db : DB) (u : User) (b : Book) (newId now : Nat) (rp0 : ReadingProgress),
      rp0 ∈ db.progresses → rp0.user_id = u.id → rp0.book_id = b.id →
      b.is_published = true →
      ReadingService.start_reading db u b newId now =
        .error ⟨400, "User is already reading this book"⟩) ∧
    (∀ (db : DB) (u : User) (b : Book) (newId now : Nat)
        (db1 db2 : DB) (rp : ReadingProgress),
      db.pairUnique →
      ReadingService.start_reading db u b newId now = .ok (db1, db2, rp) →
      db1.pairUnique ∧ db2.pairUnique) ∧
    (∀ (db : DB) (rp : ReadingProgress) (p : ReadingProgressUpdate) (now : Nat)
        (db' : DB) (rp' : ReadingProgress),
      db.pairUnique → rp ∈ db.progresses →
      (db.progresses.map ReadingProgress.id).Nodup →
      ReadingService.update_progress db rp p now = .ok (db', rp') →
      db'.pairUnique) ∧
    (∀ (db : DB) (rp : ReadingProgress),
      db.pairUnique → ((ReadingService.delete_reading_progress db rp).1).pairUnique) ∧
    (∀ (db : DB) (bk : Book),
      db.pairUnique → ((BookService.delete_book db bk).1).pairUnique) := by
  refine ⟨?_, ?_, ?_, ?_, ?_⟩
  · intro db u b newId now rp0 hmem hu hb hpub
    have hfind : (db.progresses.find?
        (fun r => r.user_id == u.id && r.book_id == b.id)).isSome :=
      List.find?_isSome.mpr ⟨rp0, hmem, by simp [hu, hb]⟩
    simp [ReadingService.start_reading, hpub, hfind]
  · intro db u b newId now db1 db2 rp hinv hok
    unfold ReadingService.start_reading at hok
    split at hok
    · cases hok
    · split at hok
      · cases hok
      · rename_i hfind
        simp only [Except.ok.injEq, Prod.mk.injEq] at hok
        obtain ⟨h1, h2, h3⟩ := hok
        subst h1
        subst h2
        subst h3
        have hzero : db.progresses.countP
            (fun r => r.user_id == u.id && r.book_id == b.id) = 0 := by
          refine List.countP_eq_zero.mpr (fun r hr hmatch => ?_)
          exact hfind (List.find?_isSome.mpr ⟨r, hr, hmatch⟩)
        have hdb1 : (⟨db.users, db.authors, db.books,
            db.progresses ++ [⟨newId, u.id, b.id, 1, b.total_pages, 0, false,
              now, none, none, now, now⟩]⟩ : DB).pairUnique := by
          intro u' b'
          show (db.progresses ++ [_]).countP _ ≤ 1
          rw [List.countP_append]
          by_cases hu : u.id = u'
          · by_cases hb : b.id = b'
            · subst hu
              subst hb
              simp [List.countP_cons, hzero]
            · have := hinv u' b'
              simp only [DB.pairCount] at this
              simp [List.countP_cons, hb]
              exact this
          · have := hinv u' b'
            simp only [DB.pairCount] at this
            simp [List.countP_cons, hu]
            exact this
        exact ⟨hdb1, hdb1⟩
  · intro db rp p now db' rp' hinv hmem hnd hok
    obtain ⟨rfl, rfl⟩ := update_progress_ok_shape hok
    intro u' b'
    obtain ⟨hu, hb, hid⟩ := apply_progress_update_keeps_pair rp p now
    show ((db.progresses.map _).countP _ ≤ 1)
    rw [countP_map_replace ReadingProgress.id hnd hmem hid _ (by simp [hu, hb])]
    exact hinv u' b'
  · intro db rp hinv u' b'
    exact le_trans (countP_filter_le _ _ _) (hinv u' b')
  · intro db bk hinv u' b'
    unfold BookService.delete_book
    cases h : db.getAuthor bk.author_id
    · exact le_trans (countP_filter_le _ _ _) (hinv u' b')
    · exact le_trans (countP_filter_le _ _ _) (hinv u' b')

/-- Witness for C4: the fixture store (one progress row for pair (1,1))
rejects a second start with the conflict error; starting on the empty
store keeps uniqueness in both commits; an update and both deletes keep
it. -/
theorem C4_one_progress_row_per_pair_witness :
    ReadingService.start_reading exDB exReader exBook 9 5 =
      .error ⟨400, "User is already reading this book"⟩ ∧
    (exStartDB1.pairUnique ∧ exStartDB2.pairUnique) ∧
    (exDB.putProgress (ReadingService.apply_progress_update exProgress
      { current_page := some 150 } 5)).pairUnique ∧
    ((ReadingService.delete_reading_progress exDB exProgress).1).pairUnique ∧
    ((BookService.delete_book exDB exBook).1).pairUnique := by
  have huniq : exDB.pairUnique := by
    intro u' b'
    show List.countP _ [exProgress] ≤ 1
    by_cases h : (exProgress.user_id == u' && exProgress.book_id == b') = true <;>
      simp [List.countP_cons, h]
  refine ⟨?_, ?_, ?_, ?_, ?_⟩
  · exact C4_one_progress_row_per_pair.1 exDB exReader exBook 9 5 exProgress
      (by simp [exDB, exDB0]) rfl rfl rfl
  · exact C4_one_progress_row_per_pair.2.1 exDB0 exReader exBook 9 5
      exStartDB1 exStartDB2 exStartRow (by intro u' b'; simp [DB.pairCount, exDB0]) rfl
  · exact C4_one_progress_row_per_pair.2.2.1 exDB exProgress
      { current_page := some 150 } 5 _ _ huniq (by simp [exDB, exDB0])
      (by simp [exDB, exDB0]) rfl
  · exact C4_one_progress_row_per_pair.2.2.2.1 exDB exProgress huniq
  · exact C4_one_progress_row_per_pair.2.2.2.2 exDB exBook huniq

/-! ## Claim C8 -/

/-- A user whose username equals the looked-up string makes
`get_user_by_username` return a user. -/
theorem get_user_by_username_isSome_of_username {db : DB} {s : String}
    (h : ∃ u ∈ db.users, u.username = s) :
    (get_user_by_username db s).isSome = true := by
  obtain ⟨u, hu, he⟩ := h
  unfold get_user_by_username
  cases hf : db.users.find? (fun x => x.username == s) with
  | some v => simp
  | none =>
    have := List.find?_eq_none.mp hf u hu
    simp [he] at this

/-- A user whose email equals the looked-up string makes
`get_user_by_username` return a user (via the email fallback). -/
theorem get_user_by_username_isSome_of_email {db : DB} {s : String}
    (h : ∃ u ∈ db.users, u.email = s) :
    (get_user_by_username db s).isSome = true := by
  obtain ⟨u, hu, he⟩ := h
  unfold get_user_by_username
  cases hf : db.users.find? (fun x => x.username == s) with
  | some v => simp
  | none => exact List.find?_isSome.mpr ⟨u, hu, by simp [he]⟩

/-- C8: registration uniqueness.  With well-formed input, registering a
username already held by an existing user fails with the conflict error
"Username already registered" whatever the emails are (this check runs
first); registering an email already held by an existing user fails with
one of the two conflict errors (the dedicated "Email already registered"
one whenever the username check does not fire first). -/
theorem C8_register_conflicts :
    (∀ (db : DB) (d : UserRegister) (hashFn : String → String)
        (newUserId newAuthorId now : Nat) (u : User),
      AuthService.validate_registration_data d = none →
      u ∈ db.users → u.username = d.username →
      AuthService.register_user db d hashFn newUserId newAuthorId now =
        .error ⟨400, "Username already registered"⟩) ∧
    (∀ (db : DB) (d : UserRegister) (hashFn : String → String)
        (newUserId newAuthorId now : Nat) (u : User),
      AuthService.validate_registration_data d = none →
      u ∈ db.users → u.email = d.email →
      AuthService.register_user db d hashFn newUserId newAuthorId now =
          .error ⟨400, "Username already registered"⟩ ∨
      AuthService.register_user db d hashFn newUserId newAuthorId now =
          .error ⟨400, "Email already registered"⟩) := by
  constructor
  · intro db d hashFn newUserId newAuthorId now u hv hu hname
    have hs := get_user_by_username_isSome_of_username ⟨u, hu, hname⟩
    simp [AuthService.register_user, hv, hs]
  · intro db d hashFn newUserId newAuthorId now u hv hu hemail
    by_cases h1 : (get_user_by_username db d.username).isSome = true
    · left
      simp [AuthService.register_user, hv, h1]
    · right
      have h1' : (get_user_by_username db d.username).isSome = false :=
        Bool.eq_false_iff.mpr h1
      have h2 := get_user_by_username_isSome_of_email ⟨u, hu, hemail⟩
      simp [AuthService.register_user, hv, h1', h2]

/-- Witness for C8: taking "reader"'s username with a fresh email, and
taking "reader"'s email with a fresh username, both fail with conflict
errors. -/
theorem C8_register_conflicts_witness :
    AuthService.register_user exDB
        { username := "reader", email := "new@mail.com", password := "Passw0rd!" }
        (fun s => s) 10 11 5 =
      .error ⟨400, "Username already registered"⟩ ∧
    (AuthService.register_user exDB
        { username := "fresh", email := "reader@example.com", password := "Passw0rd!" }
        (fun s => s) 10 11 5 =
          .error ⟨400, "Username already registered"⟩ ∨
     AuthService.register_user exDB
        { username := "fresh", email := "reader@example.com", password := "Passw0rd!" }
        (fun s => s) 10 11 5 =
          .error ⟨400, "Email already registered"⟩) := by
  constructor
  · exact C8_register_conflicts.1 exDB
      { username := "reader", email := "new@mail.com", password := "Passw0rd!" }
      (fun s => s) 10 11 5 exReader (by decide) (by simp [exDB, exDB0]) rfl
  · exact C8_register_conflicts.2 exDB
      { username := "fresh", email := "reader@example.com", password := "Passw0rd!" }
      (fun s => s) 10 11 5 exReader (by decide) (by simp [exDB, exDB0]) rfl

/-! ## Claim C6 -/

/-- C6: `total_books` bookkeeping.  Under primary-key uniqueness, a
successful `create_book` raises the book count of the creating author by
exactly 1 and re-establishes `totalBooksConsistent` (so the counter rose
by exactly 1 as well); `delete_book` lowers the count by exactly 1 and
re-establishes the invariant (the `max 0` floor never bites when the
invariant held); and the remaining operations — `start_reading`,
`update_progress`, `update_book`, `delete_reading_progress` — keep every
author row (hence every `total_books`) and the per-author book counts
unchanged. -/
theorem C6_total_books_matches_count :
    (∀ (db : DB) (author : Author) (data : BookCreate) (newId now : Nat)
        (db1 db2 : DB) (bk : Book),
      db.totalBooksConsistent →
      author ∈ db.authors → (db.authors.map Author.id).Nodup →
      BookService.create_book db author data newId now = .ok (db1, db2, bk) →
      db2.totalBooksConsistent ∧
      db2.authorBookCount author.id = db.authorBookCount author.id + 1) ∧
    (∀ (db : DB) (bk : Book),
      db.totalBooksConsistent → bk ∈ db.books →
      (db.books.map Book.id).Nodup → (db.authors.map Author.id).Nodup →
      ((BookService.delete_book db bk).1).totalBooksConsistent ∧
      ((BookService.delete_book db bk).1).authorBookCount bk.author_id
        = db.authorBookCount bk.author_id - 1) ∧
    (∀ (db : DB) (u : User) (b : Book) (newId now : Nat)
        (db1 db2 : DB) (rp : ReadingProgress),
      db.totalBooksConsistent → b ∈ db.books → (db.books.map Book.id).Nodup →
      ReadingService.start_reading db u b newId now = .ok (db1, db2, rp) →
      db1.totalBooksConsistent ∧ db2.totalBooksConsistent ∧
      db2.authors = db.authors) ∧
    (∀ (db : DB) (rp : ReadingProgress) (p : ReadingProgressUpdate) (now : Nat)
        (db' : DB) (rp' : ReadingProgress),
      db.totalBooksConsistent →
      ReadingService.update_progress db rp p now = .ok (db', rp') →
      db'.totalBooksConsistent ∧ db'.authors = db.authors) ∧
    (∀ (db : DB) (book : Book) (d : BookUpdate) (now : Nat) (db' : DB) (b' : Book),
      db.totalBooksConsistent → book ∈ db.books → (db.books.map Book.id).Nodup →
      BookService.update_book db book d now = .ok (db', b') →
      db'.totalBooksConsistent ∧ db'.authors = db.authors) ∧
    (∀ (db : DB) (rp : ReadingProgress),
      db.totalBooksConsistent →
      ((ReadingService.delete_reading_progress db rp).1).totalBooksConsistent ∧
      ((ReadingService.delete_reading_progress db rp).1).authors = db.authors) := by
  refine ⟨?_, ?_, ?_, ?_, ?_, ?_⟩
  · -- create_book
    intro db author data newId now db1 db2 bk hinv hmem hnd hok
    obtain ⟨rfl, rfl, hbk⟩ := create_book_ok_shape hok
    have hbka : bk.author_id = author.id := by rw [hbk]
    have hcount : ∀ aid : Nat,
        (db.books ++ [bk]).countP (fun b => b.author_id == aid)
          = db.authorBookCount aid + (if author.id = aid then 1 else 0) := by
      intro aid
      rw [List.countP_append]
      by_cases h : author.id = aid <;>
        simp [List.countP_cons, hbka, h, DB.authorBookCount]
    constructor
    · intro a ha
      simp only [DB.putAuthor, List.mem_map] at ha
      obtain ⟨x, hx, rfl⟩ := ha
      by_cases hid : (x.id == author.id) = true
      · simp only [hid, eq_self_iff_true, if_true]
        show author.total_books + 1
          = (((db.books ++ [bk]).countP (fun b => b.author_id == author.id) : Nat) : Int)
        rw [hcount author.id, if_pos rfl, hinv author hmem]
        push_cast
        ring
      · have hxa : x.id ≠ author.id := by simpa using hid
        simp only [Bool.not_eq_true] at hid
        simp only [hid, Bool.false_eq_true, if_false]
        show x.total_books
          = (((db.books ++ [bk]).countP (fun b => b.author_id == x.id) : Nat) : Int)
        rw [hcount x.id, if_neg (fun h => hxa h.symm), Nat.add_zero]
        exact hinv x hx
    · show (db.books ++ [bk]).countP _ = _
      rw [hcount author.id, if_pos rfl]
  · -- delete_book
    intro db bk hinv hmem hndb hnda
    have hself : (fun b => b.author_id == bk.author_id) bk = true := by simp
    have hcntkey : ∀ aid, (db.books.filter (fun b => !(b.id == bk.id))).countP
        (fun b => b.author_id == aid)
        = db.books.countP (fun b => b.author_id == aid)
          - (if bk.author_id = aid then 1 else 0) := by
      intro aid
      rw [countP_filter_key_ne Book.id hmem hndb]
      by_cases h : bk.author_id = aid <;> simp [h]
    unfold BookService.delete_book
    cases hga : db.getAuthor bk.author_id with
    | none =>
      have hnone : ∀ a ∈ db.authors, a.id ≠ bk.author_id := by
        intro a ha
        have := List.find?_eq_none.mp hga a ha
        simpa using this
      constructor
      · intro a ha
        show a.total_books
          = (((db.books.filter (fun b => !(b.id == bk.id))).countP
              (fun b => b.author_id == a.id) : Nat) : Int)
        rw [hcntkey a.id, if_neg (fun h => hnone a ha h.symm), Nat.sub_zero]
        exact hinv a ha
      · show (db.books.filter _).countP _ = _
        rw [hcntkey bk.author_id, if_pos rfl]
        rfl
    | some a0 =>
      have ha0mem : a0 ∈ db.authors := List.mem_of_find?_eq_some hga
      have ha0id : a0.id = bk.author_id := by
        have := List.find?_some hga
        simpa using this
      have hpos : 0 < db.books.countP (fun b => b.author_id == bk.author_id) :=
        List.countP_pos_iff.mpr ⟨bk, hmem, hself⟩
      constructor
      · intro a ha
        simp only [DB.putAuthor, List.mem_map] at ha
        obtain ⟨x, hx, rfl⟩ := ha
        by_cases hid : (x.id == a0.id) = true
        · simp only [hid, eq_self_iff_true, if_true]
          show max 0 (a0.total_books - 1)
            = (((db.books.filter (fun b => !(b.id == bk.id))).countP
                (fun b => b.author_id == a0.id) : Nat) : Int)
          rw [hcntkey a0.id, if_pos ha0id.symm]
          have hx0 : a0.total_books
              = ((db.books.countP (fun b => b.author_id == a0.id) : Nat) : Int) :=
            hinv a0 ha0mem
          have hpos1 : 0 < db.books.countP (fun b => b.author_id == a0.id) := by
            rw [ha0id]
            exact hpos
          rw [hx0]
          omega
        · have hxa : x.id ≠ a0.id := by simpa using hid
          simp only [Bool.not_eq_true] at hid
          simp only [hid, Bool.false_eq_true, if_false]
          show x.total_books
            = (((db.books.filter (fun b => !(b.id == bk.id))).countP
                (fun b => b.author_id == x.id) : Nat) : Int)
          rw [hcntkey x.id, if_neg (fun h => hxa ((ha0id.trans h).symm)), Nat.sub_zero]
          exact hinv x hx
      · show (db.books.filter _).countP _ = _
        rw [hcntkey bk.author_id, if_pos rfl]
        rfl
  · -- start_reading
    intro db u b newId now db1 db2 rp hinv hmem hnd hok
    obtain ⟨rfl, rfl, rfl, -⟩ := start_reading_ok_shape hok
    refine ⟨hinv, ?_, rfl⟩
    intro a ha
    show a.total_books
      = (((db.books.map (fun x =>
          if x.id == b.increment_read_count.id then b.increment_read_count else x)).countP
          (fun x => x.author_id == a.id) : Nat) : Int)
    rw [@countP_map_replace Book Book.id db.books b b.increment_read_count hnd hmem
      rfl (fun x => x.author_id == a.id) rfl]
    exact hinv a ha
  · -- update_progress
    intro db rp p now db' rp' hinv hok
    obtain ⟨-, rfl⟩ := update_progress_ok_shape hok
    exact ⟨fun a ha => hinv a ha, rfl⟩
  · -- update_book
    intro db book d now db' b' hinv hmem hnd hok
    obtain ⟨-, rfl⟩ := update_book_ok_shape hok
    refine ⟨?_, rfl⟩
    intro a ha
    obtain ⟨hkid, hkauthor⟩ := apply_book_patch_keeps_ids book d now
    show a.total_books
      = (((db.books.map (fun x =>
          if x.id == (BookService.apply_book_patch book d now).id
          then BookService.apply_book_patch book d now else x)).countP
          (fun x => x.author_id == a.id) : Nat) : Int)
    rw [countP_map_replace Book.id hnd hmem hkid (fun x => x.author_id == a.id)
      (by simp only [hkauthor])]
    exact hinv a ha
  · -- delete_reading_progress
    intro db rp hinv
    exact ⟨fun a ha => hinv a ha, rfl⟩

/-- Witness for C6 at a consistent fixture store (one author with
`total_books = 1`, one book): creating a second book raises the count to 2
and keeps consistency, deleting lowers it, and the frame operations leave
the author table unchanged. -/
theorem C6_total_books_matches_count_witness :
    exCreateC2.totalBooksConsistent ∧
    exCreateC2.authorBookCount exAuthor1.id = exDBC.authorBookCount exAuthor1.id + 1 ∧
    ((BookService.delete_book exDBC exBook).1).totalBooksConsistent ∧
    ((BookService.delete_book exDBC exBook).1).authorBookCount exBook.author_id
      = exDBC.authorBookCount exBook.author_id - 1 ∧
    (DB.putBook { exDBC with progresses := exDBC.progresses ++ [exStartRow] }
      exBook.increment_read_count).totalBooksConsistent ∧
    (exDBC.putProgress (ReadingService.apply_progress_update exProgress
      { current_page := some 150 } 5)).authors = exDBC.authors ∧
    (exDBC.putBook (BookService.apply_book_patch exBook
      { description := some "upd" } 5)).totalBooksConsistent ∧
    ((ReadingService.delete_reading_progress exDBC exProgress).1).authors
      = exDBC.authors := by
  have hinvC : exDBC.totalBooksConsistent := by
    intro a ha
    rcases List.mem_singleton.mp ha with rfl
    decide
  have hmemA : exAuthor1 ∈ exDBC.authors := List.mem_singleton.mpr rfl
  have hmemB : exBook ∈ exDBC.books := List.mem_singleton.mpr rfl
  have hndB : (exDBC.books.map Book.id).Nodup := by decide
  have hndA : (exDBC.authors.map Author.id).Nodup := by decide
  have h1 := C6_total_books_matches_count.1 exDBC exAuthor1 { title := "Aurora" }
    2 5 exCreateC1 exCreateC2 exNewBook hinvC hmemA hndA rfl
  have h2 := C6_total_books_matches_count.2.1 exDBC exBook hinvC hmemB hndB hndA
  have h3 := C6_total_books_matches_count.2.2.1 exDBC exReader exBook 9 5
    ({ exDBC with progresses := exDBC.progresses ++ [exStartRow] })
    (DB.putBook { exDBC with progresses := exDBC.progresses ++ [exStartRow] }
      exBook.increment_read_count) exStartRow hinvC hmemB hndB rfl
  have h4 := C6_total_books_matches_count.2.2.2.1 exDBC exProgress
    { current_page := some 150 } 5
    (exDBC.putProgress (ReadingService.apply_progress_update exProgress
      { current_page := some 150 } 5))
    (ReadingService.apply_progress_update exProgress
      { current_page := some 150 } 5) hinvC rfl
  have h5 := C6_total_books_matches_count.2.2.2.2.1 exDBC exBook
    { description := some "upd" } 5
    (exDBC.putBook (BookService.apply_book_patch exBook
      { description := some "upd" } 5))
    (BookService.apply_book_patch exBook { description := some "upd" } 5)
    hinvC hmemB hndB rfl
  have h6 := C6_total_books_matches_count.2.2.2.2.2 exDBC exProgress hinvC
  exact ⟨h1.1, h1.2, h2.1, h2.2, h3.2.1, h4.2, h5.1, h6.2⟩

end OnlineLib
